import Mathlib

/-
Verification of the BQ25723 register-access driver (Sketch/BQ25723.hpp).

The driver talks to a TI BQ25723 battery-charge controller over a two-wire
bus (Arduino `TwoWire`).  We embed the driver shallowly: the transport is an
abstract state machine with the five primitives the driver actually calls
(`beginTransmission`, `write`, `endTransmission`, `requestFrom`, `read`),
every driver operation threads the transport state explicitly and returns,
besides its C++ result, the list of transport calls it performed (the I/O
trace).  Machine integers become `Nat` with explicit `% 256` / bit masks
exactly where the C++ types truncate.
-/

namespace BQ25723Model

/-- One observable call made by the driver on the two-wire transport. -/
inductive WireEvent where
  | beginTransmission (addr : Nat)
  | writeByte (b : Nat)
  | endTransmission (stop : Bool)
  | requestFrom (addr : Nat) (count : Nat)
  | readByte
  deriving DecidableEq, Repr

/-- The `TwoWire` primitives the driver uses, as a state machine over a state
type `σ`.  `endTransmission` returns the Arduino status code (0 = success);
`requestFrom` returns the number of bytes actually received; `read` returns
the next received byte. -/
structure Transport (σ : Type) where
  beginTransmission : σ → Nat → σ
  write : σ → Nat → σ
  endTransmission : σ → Bool → Nat × σ
  requestFrom : σ → Nat → Nat → Nat × σ
  read : σ → Nat × σ

/-- The driver instance: fields `_address`, `_i2cSpeed`, `_initialized` of
class `BQ25723`.  The `TwoWire*` member is replaced by the explicit transport
argument of each operation. -/
structure BQ25723 where
  address : Nat
  i2cSpeed : Nat
  initialized : Bool
  deriving DecidableEq, Repr

/-- Address phase of `BQ25723::readRegister`: begin a transmission to the
device, write the register-address byte, and end the transmission without a
stop condition (`endTransmission(false)`).  Returns the status code and the
transport state afterwards. -/
def addrPhase (dev : BQ25723) (T : Transport σ) (s : σ) (regAddr : Nat) : Nat × σ :=
  T.endTransmission (T.write (T.beginTransmission s dev.address) regAddr) false

/-- Data phase of `BQ25723::readRegister`: `requestFrom(_address, 2)` run after
the address phase.  Returns the received-byte count and the state. -/
def dataPhase (dev : BQ25723) (T : Transport σ) (s : σ) (regAddr : Nat) : Nat × σ :=
  T.requestFrom (addrPhase dev T s regAddr).2 dev.address 2

/-- First byte delivered by the transport during a read of `regAddr`
(`uint8_t lsb = _wire->read();`), with the state afterwards. -/
def recvLo (dev : BQ25723) (T : Transport σ) (s : σ) (regAddr : Nat) : Nat × σ :=
  T.read (dataPhase dev T s regAddr).2

/-- Second byte delivered by the transport during a read of `regAddr`
(`uint8_t msb = _wire->read();`), with the state afterwards. -/
def recvHi (dev : BQ25723) (T : Transport σ) (s : σ) (regAddr : Nat) : Nat × σ :=
  T.read (recvLo dev T s regAddr).2

/-- Embedding of `bool BQ25723::readRegister(uint8_t regAddr, uint16_t* value)`.
The out-parameter is modelled as `ptr : Option Nat`: `none` is a null pointer,
`some prior` a valid pointer to a cell currently holding `prior`.  The result
is `(returned bool, cell content after the call, transport state, I/O trace)`.
The two received bytes pass through `uint8_t` locals, hence the `% 256`; the
value stored through the pointer is `(msb << 8) | lsb`. -/
def readRegister (dev : BQ25723) (T : Transport σ) (s : σ) (regAddr : Nat)
    (ptr : Option Nat) : Bool × Option Nat × σ × List WireEvent :=
  if !dev.initialized || ptr.isNone then (false, ptr, s, [])
  else
    let e := addrPhase dev T s regAddr
    let tr1 := [WireEvent.beginTransmission dev.address, WireEvent.writeByte regAddr,
                WireEvent.endTransmission false]
    if e.1 ≠ 0 then (false, ptr, e.2, tr1)
    else
      let rq := dataPhase dev T s regAddr
      let tr2 := tr1 ++ [WireEvent.requestFrom dev.address 2]
      if rq.1 ≠ 2 then (false, ptr, rq.2, tr2)
      else
        let lsb := (recvLo dev T s regAddr).1 % 256
        let msb := (recvHi dev T s regAddr).1 % 256
        (true, some ((msb <<< 8) ||| lsb), (recvHi dev T s regAddr).2,
         tr2 ++ [WireEvent.readByte, WireEvent.readByte])

/-- Embedding of `uint16_t BQ25723::readRegister(uint8_t regAddr)` (the
convenience overload).  The local `uint16_t value` starts uninitialized in the
C++; it is only ever returned after the pointer form succeeded and wrote it,
so its initial content is irrelevant and modelled as `0`.  On any failure the
overload returns the sentinel `0xFFFF`. -/
def readRegisterValue (dev : BQ25723) (T : Transport σ) (s : σ) (regAddr : Nat) :
    Nat × σ × List WireEvent :=
  let r := readRegister dev T s regAddr (some 0)
  if r.1 then (r.2.1.getD 0xFFFF, r.2.2.1, r.2.2.2)
  else (0xFFFF, r.2.2.1, r.2.2.2)

/-- Embedding of `bool BQ25723::writeRegister(uint8_t regAddr, uint16_t value)`:
begin a transmission to the device, write the register address, the low byte
`value & 0xFF`, the high byte `(value >> 8) & 0xFF`, then
`endTransmission(true)`; the result is `status == 0`. -/
def writeRegister (dev : BQ25723) (T : Transport σ) (s : σ) (regAddr : Nat)
    (value : Nat) : Bool × σ × List WireEvent :=
  if !dev.initialized then (false, s, [])
  else
    let s1 := T.beginTransmission s dev.address
    let s2 := T.write s1 regAddr
    let s3 := T.write s2 (value &&& 0xFF)
    let s4 := T.write s3 ((value >>> 8) &&& 0xFF)
    let e := T.endTransmission s4 true
    (e.1 == 0, e.2,
     [WireEvent.beginTransmission dev.address, WireEvent.writeByte regAddr,
      WireEvent.writeByte (value &&& 0xFF), WireEvent.writeByte ((value >>> 8) &&& 0xFF),
      WireEvent.endTransmission true])

/-- Loop body of `BQ25723::readMultipleRegisters`: reads registers
`startAddr + i, …` for the remaining `n` iterations, updating the buffer slot
`i` with the read value on success and with the sentinel `0xFFFF` on failure.
The register address is `uint8_t` arithmetic, hence `(startAddr + i) % 256`.
Returns `(successCount, buffer, transport state, trace)`. -/
def readMultiAux (dev : BQ25723) (T : Transport σ) (startAddr : Nat) :
    Nat → Nat → List Nat → σ → Nat × List Nat × σ × List WireEvent
  | _, 0, buf, s => (0, buf, s, [])
  | i, n + 1, buf, s =>
    let r := readRegister dev T s ((startAddr + i) % 256) (some (buf.getD i 0))
    let cell := if r.1 then r.2.1.getD 0xFFFF else 0xFFFF
    let rest := readMultiAux dev T startAddr (i + 1) n (buf.set i cell) r.2.2.1
    ((if r.1 then 1 else 0) + rest.1, rest.2.1, rest.2.2.1, r.2.2.2 ++ rest.2.2.2)

/-- Embedding of
`uint8_t BQ25723::readMultipleRegisters(uint8_t startAddr, uint16_t* buffer, uint8_t count)`.
A `none` buffer is a null pointer.  The guard mirrors
`if (!_initialized || !buffer || count == 0) return 0;`. -/
def readMultipleRegisters (dev : BQ25723) (T : Transport σ) (s : σ) (startAddr : Nat)
    (buffer : Option (List Nat)) (count : Nat) :
    Nat × Option (List Nat) × σ × List WireEvent :=
  match buffer with
  | none => (0, none, s, [])
  | some buf =>
    if !dev.initialized || count == 0 then (0, some buf, s, [])
    else
      let r := readMultiAux dev T startAddr 0 count buf s
      (r.1, some r.2.1, r.2.2.1, r.2.2.2)

/-- Embedding of `uint8_t BQ25723::getAddress() const`. -/
def getAddress (dev : BQ25723) : Nat :=
  dev.address

/-- Embedding of `void BQ25723::setAddress(uint8_t newAddress)`: stores the new
address (truncated to `uint8_t`) and clears `_initialized`. -/
def setAddress (dev : BQ25723) (newAddress : Nat) : BQ25723 :=
  { dev with address := newAddress % 256, initialized := false }

/-- Embedding of `bool BQ25723::isInitialized() const`. -/
def isInitialized (dev : BQ25723) : Bool :=
  dev.initialized

/-- Embedding of `static const char* BQ25723::getRegisterName(uint8_t regAddr)`:
the switch over the fixed register catalog. -/
def getRegisterName (regAddr : Nat) : String :=
  match regAddr with
  | 0x00 => "CHARGE_OPTION_0"
  | 0x02 => "CHARGE_CURRENT"
  | 0x04 => "CHARGE_VOLTAGE"
  | 0x06 => "OTG_VOLTAGE"
  | 0x08 => "OTG_CURRENT"
  | 0x0A => "INPUT_VOLTAGE"
  | 0x0C => "VSYS_MIN"
  | 0x0E => "IIN_HOST"
  | 0x20 => "CHARGER_STATUS"
  | 0x22 => "PROCHOT_STATUS"
  | 0x24 => "IIN_DPM"
  | 0x26 => "ADCVBUS_PSYS"
  | 0x28 => "ADCIBAT"
  | 0x2A => "ADCIINCMPIN"
  | 0x2C => "ADCVSYSVBAT"
  | 0x2E => "MANUFACTURER_ID"
  | 0x2F => "DEVICE_ID"
  | 0x30 => "CHARGE_OPTION_1"
  | 0x32 => "CHARGE_OPTION_2"
  | 0x34 => "CHARGE_OPTION_3"
  | 0x36 => "PROCHOT_OPTION_0"
  | 0x38 => "PROCHOT_OPTION_1"
  | 0x3A => "ADC_OPTION"
  | 0x3C => "CHARGE_OPTION_4"
  | 0x3E => "VMIN_ACT_PROT"
  | _ => "UNKNOWN"

/-- The 25 register addresses of the documented catalog (the `case` labels of
`getRegisterName`). -/
def catalogAddrs : List Nat :=
  [0x00, 0x02, 0x04, 0x06, 0x08, 0x0A, 0x0C, 0x0E,
   0x20, 0x22, 0x24, 0x26, 0x28, 0x2A, 0x2C, 0x2E, 0x2F,
   0x30, 0x32, 0x34, 0x36, 0x38, 0x3A, 0x3C, 0x3E]

/-- A scripted fake transport for single reads: `endTransmission` always
returns `endCode`, `requestFrom` reports `avail` bytes received and loads
`bytes` into the receive queue, `read` pops the queue (0 when empty).  The
state is the receive queue. -/
def oracleTransport (endCode avail : Nat) (bytes : List Nat) : Transport (List Nat) where
  beginTransmission := fun s _ => s
  write := fun s _ => s
  endTransmission := fun s _ => (endCode, s)
  requestFrom := fun _ _ _ => (avail, bytes)
  read := fun s => (s.headD 0, s.tail)

/-- State of the loopback fake device: a register file mapping a register
address to the data bytes last written to it, the bytes written so far in the
open transmission, the register address the device is currently pointed at,
and the receive queue. -/
structure EchoState where
  regs : Nat → List Nat
  cur : List Nat
  ptrAddr : Nat
  queue : List Nat

/-- A loopback fake transport that behaves like the BQ25723 on the bus: the
first byte of a transmission selects a register; any further bytes are stored
there; `requestFrom` delivers the bytes stored at the selected register.
Every transaction is acknowledged (status 0). -/
def echoTransport : Transport EchoState where
  beginTransmission := fun s _ => { s with cur := [] }
  write := fun s b => { s with cur := s.cur ++ [b % 256] }
  endTransmission := fun s _ =>
    match s.cur with
    | [] => (0, s)
    | a :: rest =>
      (0, { s with
            regs := if rest.isEmpty then s.regs else fun x => if x = a then rest else s.regs x,
            ptrAddr := a, cur := [] })
  requestFrom := fun s _ count =>
    let bytes := (s.regs s.ptrAddr).take count
    (bytes.length, { s with queue := bytes })
  read := fun s => (s.queue.headD 0, { s with queue := s.queue.tail })

/-- State of the per-address faulty fake transport: the register address the
device is pointed at and the receive queue. -/
structure FaultyState where
  ptrAddr : Nat
  queue : List Nat

/-- A fake transport whose reads fail exactly on the addresses where `ok` is
false: a written byte selects the register, `requestFrom` delivers the two
bytes of `val addr` (low byte first) when `ok addr` holds and reports 0 bytes
otherwise.  Address-phase transactions always succeed (status 0). -/
def faultyTransport (ok : Nat → Bool) (val : Nat → Nat) : Transport FaultyState where
  beginTransmission := fun s _ => s
  write := fun s b => { s with ptrAddr := b % 256 }
  endTransmission := fun s _ => (0, s)
  requestFrom := fun s _ count =>
    if ok s.ptrAddr then
      (count, { s with queue := [val s.ptrAddr % 256, val s.ptrAddr / 256 % 256] })
    else (0, s)
  read := fun s => (s.queue.headD 0, { s with queue := s.queue.tail })

/-- Masking with `0xFF` is reduction mod 256. -/
theorem and_255_eq_mod (w : Nat) : w &&& 255 = w % 256 :=
  Nat.and_pow_two_sub_one_eq_mod w 8

/-- Shifting right by 8 is division by 256. -/
theorem shiftRight_8_eq_div (w : Nat) : w >>> 8 = w / 256 :=
  Nat.shiftRight_eq_div_pow w 8

/-- Recombining a high byte and a low byte: `(a <<< 8) ||| b = a * 256 + b`
when `b` fits in a byte. -/
theorem lor_shiftLeft_8 (a b : Nat) (hb : b < 256) : (a <<< 8) ||| b = a * 256 + b := by
  have h := Nat.mul_add_lt_is_or (show b < 2 ^ 8 by omega) a
  rw [Nat.shiftLeft_eq, Nat.mul_comm]
  omega

/-- Reassembling the two wire bytes of a 16-bit value gives the value back. -/
theorem combine_split_bytes (v : Nat) (hv : v < 65536) :
    (((((v >>> 8) &&& 255) % 256) % 256) <<< 8) ||| (((v &&& 255) % 256) % 256) = v := by
  rw [and_255_eq_mod, shiftRight_8_eq_div, and_255_eq_mod,
    lor_shiftLeft_8 _ _ (by omega)]
  omega

/-- Reassembling the two wire bytes of an arbitrary value truncates it to 16
bits. -/
theorem combine_bytes_mod (w : Nat) :
    (((w / 256 % 256) % 256) <<< 8) ||| ((w % 256) % 256) = w % 65536 := by
  rw [lor_shiftLeft_8 _ _ (by omega)]
  omega

/-- The canonical address→name table of the register catalog (the `case`
labels and return strings of `getRegisterName`). -/
def catalogTable : List (Nat × String) :=
  [(0x00, "CHARGE_OPTION_0"), (0x02, "CHARGE_CURRENT"), (0x04, "CHARGE_VOLTAGE"),
   (0x06, "OTG_VOLTAGE"), (0x08, "OTG_CURRENT"), (0x0A, "INPUT_VOLTAGE"),
   (0x0C, "VSYS_MIN"), (0x0E, "IIN_HOST"), (0x20, "CHARGER_STATUS"),
   (0x22, "PROCHOT_STATUS"), (0x24, "IIN_DPM"), (0x26, "ADCVBUS_PSYS"),
   (0x28, "ADCIBAT"), (0x2A, "ADCIINCMPIN"), (0x2C, "ADCVSYSVBAT"),
   (0x2E, "MANUFACTURER_ID"), (0x2F, "DEVICE_ID"), (0x30, "CHARGE_OPTION_1"),
   (0x32, "CHARGE_OPTION_2"), (0x34, "CHARGE_OPTION_3"), (0x36, "PROCHOT_OPTION_0"),
   (0x38, "PROCHOT_OPTION_1"), (0x3A, "ADC_OPTION"), (0x3C, "CHARGE_OPTION_4"),
   (0x3E, "VMIN_ACT_PROT")]

/-- C1: every register operation on an uninitialized driver returns its
failure result (false, the 0xFFFF sentinel, success count 0 respectively),
leaves the transport state untouched, and performs no transport I/O (empty
trace). -/
theorem uninitialized_gating {σ : Type} (dev : BQ25723) (T : Transport σ) (s : σ)
    (a1 a2 a3 v count : Nat) (ptr : Option Nat) (buffer : Option (List Nat))
    (h : dev.initialized = false) :
    readRegister dev T s a1 ptr = (false, ptr, s, []) ∧
    readRegisterValue dev T s a1 = (0xFFFF, s, []) ∧
    writeRegister dev T s a2 v = (false, s, []) ∧
    readMultipleRegisters dev T s a3 buffer count = (0, buffer, s, []) := by
  refine ⟨by simp [readRegister, h], by simp [readRegisterValue, readRegister, h],
    by simp [writeRegister, h], ?_⟩
  cases buffer <;> simp [readMultipleRegisters, h]

/-- Concrete instantiation of `uninitialized_gating`. -/
theorem uninitialized_gating_witness :
    ((⟨0x6B, 100000, false⟩ : BQ25723).initialized = false) ∧
    (readRegister ⟨0x6B, 100000, false⟩ (oracleTransport 0 2 [0x23, 0x00]) [] 0x2F (some 7) =
        (false, some 7, [], []) ∧
      readRegisterValue ⟨0x6B, 100000, false⟩ (oracleTransport 0 2 [0x23, 0x00]) [] 0x2F =
        (0xFFFF, [], []) ∧
      writeRegister ⟨0x6B, 100000, false⟩ (oracleTransport 0 2 [0x23, 0x00]) [] 0x02 0x1770 =
        (false, [], []) ∧
      readMultipleRegisters ⟨0x6B, 100000, false⟩ (oracleTransport 0 2 [0x23, 0x00]) [] 0x20
        (some [1, 2, 3]) 3 = (0, some [1, 2, 3], [], [])) :=
  ⟨rfl, uninitialized_gating _ _ _ _ _ _ _ _ _ _ rfl⟩

/-- C2: on an initialized driver, `writeRegister` performs exactly one
transaction addressed to the device that transmits the register address, then
the low byte of the value, then the high byte, and closes with a stop
condition; in particular writing 0x1770 to register 0x02 transmits
[0x02, 0x70, 0x17]. -/
theorem writeRegister_byte_sequence {σ : Type} (dev : BQ25723) (T : Transport σ) (s : σ)
    (regAddr v : Nat) (hinit : dev.initialized = true) (hv : v < 65536) :
    (writeRegister dev T s regAddr v).2.2 =
      [WireEvent.beginTransmission dev.address, WireEvent.writeByte regAddr,
       WireEvent.writeByte (v % 256), WireEvent.writeByte (v / 256),
       WireEvent.endTransmission true] ∧
    (writeRegister dev T s 0x02 0x1770).2.2 =
      [WireEvent.beginTransmission dev.address, WireEvent.writeByte 0x02,
       WireEvent.writeByte 0x70, WireEvent.writeByte 0x17,
       WireEvent.endTransmission true] := by
  have hhi : v / 256 < 256 := by omega
  constructor
  · simp [writeRegister, hinit, and_255_eq_mod, shiftRight_8_eq_div, Nat.mod_eq_of_lt hhi]
  · simp [writeRegister, hinit, and_255_eq_mod, shiftRight_8_eq_div]

/-- Concrete instantiation of `writeRegister_byte_sequence`. -/
theorem writeRegister_byte_sequence_witness :
    ((⟨0x6B, 100000, true⟩ : BQ25723).initialized = true ∧ (0x1770 : Nat) < 65536) ∧
    (writeRegister ⟨0x6B, 100000, true⟩ (oracleTransport 0 2 []) [] 0x02 0x1770).2.2 =
      [WireEvent.beginTransmission 0x6B, WireEvent.writeByte 0x02, WireEvent.writeByte 0x70,
       WireEvent.writeByte 0x17, WireEvent.endTransmission true] :=
  ⟨⟨rfl, by decide⟩,
    (writeRegister_byte_sequence ⟨0x6B, 100000, true⟩ (oracleTransport 0 2 []) [] 0x02 0x1770
      rfl (by decide)).2⟩

/-- C7: `setAddress` stores the new address and unconditionally clears the
initialization flag, for every driver state (initialized or not) and every new
address, including a new address equal to the old one. -/
theorem setAddress_invalidates (dev : BQ25723) (newAddress : Nat) :
    (setAddress dev newAddress).initialized = false ∧
    isInitialized (setAddress dev newAddress) = false ∧
    (newAddress < 256 → getAddress (setAddress dev newAddress) = newAddress) := by
  refine ⟨rfl, rfl, fun h => ?_⟩
  simp [getAddress, setAddress, Nat.mod_eq_of_lt h]

/-- Concrete instantiation of `setAddress_invalidates`: a Ready driver whose
address is re-set to the same value ends up uninitialized. -/
theorem setAddress_invalidates_witness :
    (setAddress ⟨0x6B, 100000, true⟩ 0x6B).initialized = false ∧
    getAddress (setAddress ⟨0x6B, 100000, true⟩ 0x6B) = 0x6B :=
  ⟨(setAddress_invalidates ⟨0x6B, 100000, true⟩ 0x6B).1,
   (setAddress_invalidates ⟨0x6B, 100000, true⟩ 0x6B).2.2 (by decide)⟩

set_option maxRecDepth 16384 in
/-- C8: `getRegisterName` is a pure total function: it returns the canonical
non-empty name on each of the 25 catalog addresses and the fixed "UNKNOWN"
token on every 8-bit address outside the catalog, including the boundary
values 0x00 (in the catalog) and 0xFF (outside it). -/
theorem getRegisterName_total :
    (∀ p ∈ catalogTable, getRegisterName p.1 = p.2 ∧ p.2 ≠ "" ∧ p.2 ≠ "UNKNOWN") ∧
    (∀ a : Nat, a < 256 → a ∉ catalogAddrs → getRegisterName a = "UNKNOWN") ∧
    catalogTable.map Prod.fst = catalogAddrs ∧
    getRegisterName 0x00 = "CHARGE_OPTION_0" ∧
    getRegisterName 0xFF = "UNKNOWN" :=
  ⟨by decide, by decide, by decide, rfl, rfl⟩

set_option maxRecDepth 16384 in
/-- Concrete instantiation of `getRegisterName_total` at a catalog address and
at the out-of-catalog boundary address 0xFF. -/
theorem getRegisterName_total_witness :
    getRegisterName 0x2F = "DEVICE_ID" ∧ getRegisterName 0xFF = "UNKNOWN" :=
  ⟨(getRegisterName_total.1 (0x2F, "DEVICE_ID") (by decide)).1,
   getRegisterName_total.2.1 0xFF (by decide) (by decide)⟩

/-- C9: calling the pointer-taking read with a null out-pointer returns false
without any transport I/O and without touching the pointer, in every driver
state (initialized included). -/
theorem readRegister_null_guard {σ : Type} (dev : BQ25723) (T : Transport σ) (s : σ)
    (regAddr : Nat) :
    readRegister dev T s regAddr none = (false, none, s, []) := by
  simp [readRegister]

/-- C10: whenever the pointer-taking read returns false, the cell behind the
out-pointer is left exactly as it was: the out-parameter is written only on
the success path. -/
theorem readRegister_out_param_on_failure {σ : Type} (dev : BQ25723) (T : Transport σ)
    (s : σ) (regAddr : Nat) (ptr : Option Nat)
    (h : (readRegister dev T s regAddr ptr).1 = false) :
    (readRegister dev T s regAddr ptr).2.1 = ptr := by
  by_cases h0 : (!dev.initialized || ptr.isNone) = true
  · simp [readRegister, h0]
  · by_cases h1 : (addrPhase dev T s regAddr).1 ≠ 0
    · simp [readRegister, h0, h1]
    · by_cases h2 : (dataPhase dev T s regAddr).1 ≠ 2
      · simp [readRegister, h0, h1, h2]
      · exfalso
        simp [readRegister, h0, h1, h2] at h

/-- Concrete instantiation of `readRegister_out_param_on_failure`: a failed
read (uninitialized driver) leaves the pointed-to cell holding its prior
value 0x1234. -/
theorem readRegister_out_param_on_failure_witness :
    ((readRegister ⟨0x6B, 100000, false⟩ (oracleTransport 0 2 [0x23, 0x00]) [] 0x2F
        (some 0x1234)).1 = false) ∧
    (readRegister ⟨0x6B, 100000, false⟩ (oracleTransport 0 2 [0x23, 0x00]) [] 0x2F
        (some 0x1234)).2.1 = some 0x1234 :=
  ⟨by decide,
   readRegister_out_param_on_failure ⟨0x6B, 100000, false⟩ (oracleTransport 0 2 [0x23, 0x00])
     [] 0x2F (some 0x1234) (by decide)⟩

/-- C3: a successful pointer-form read on the driver performs the address
phase, requests exactly 2 bytes, reads two bytes, and returns
`(secondByte <<< 8) ||| firstByte`: the first received byte is the low byte. -/
theorem readRegister_success_shape {σ : Type} (dev : BQ25723) (T : Transport σ) (s : σ)
    (regAddr prior : Nat)
    (hok : (readRegister dev T s regAddr (some prior)).1 = true) :
    (readRegister dev T s regAddr (some prior)).2.2.2 =
      [WireEvent.beginTransmission dev.address, WireEvent.writeByte regAddr,
       WireEvent.endTransmission false, WireEvent.requestFrom dev.address 2,
       WireEvent.readByte, WireEvent.readByte] ∧
    (readRegister dev T s regAddr (some prior)).2.1 =
      some ((((recvHi dev T s regAddr).1 % 256) <<< 8) |||
            ((recvLo dev T s regAddr).1 % 256)) := by
  cases hi : dev.initialized with
  | false =>
    exfalso
    simp [readRegister, hi] at hok
  | true =>
    by_cases h1 : (addrPhase dev T s regAddr).1 ≠ 0
    · exfalso
      simp [readRegister, hi, h1] at hok
    · by_cases h2 : (dataPhase dev T s regAddr).1 ≠ 2
      · exfalso
        simp [readRegister, hi, h1, h2] at hok
      · simp [readRegister, hi, h1, h2]

/-- Concrete instantiation of `readRegister_success_shape`: the fake transport
delivers bytes [0x23, 0x00] for register 0x2F and the read yields 0x0023. -/
theorem readRegister_success_shape_witness :
    ((readRegister ⟨0x6B, 100000, true⟩ (oracleTransport 0 2 [0x23, 0x00]) [] 0x2F
        (some 0)).1 = true) ∧
    (readRegister ⟨0x6B, 100000, true⟩ (oracleTransport 0 2 [0x23, 0x00]) [] 0x2F
        (some 0)).2.1 = some 0x23 ∧
    (readRegister ⟨0x6B, 100000, true⟩ (oracleTransport 0 2 [0x23, 0x00]) [] 0x2F
        (some 0)).2.2.2 =
      [WireEvent.beginTransmission 0x6B, WireEvent.writeByte 0x2F,
       WireEvent.endTransmission false, WireEvent.requestFrom 0x6B 2,
       WireEvent.readByte, WireEvent.readByte] :=
  ⟨by decide,
   (readRegister_success_shape ⟨0x6B, 100000, true⟩ (oracleTransport 0 2 [0x23, 0x00]) []
      0x2F 0 (by decide)).2,
   (readRegister_success_shape ⟨0x6B, 100000, true⟩ (oracleTransport 0 2 [0x23, 0x00]) []
      0x2F 0 (by decide)).1⟩

/-- C5: the convenience read returns the sentinel 0xFFFF exactly when the read
failed (uninitialized driver, failed address-phase transmission, or fewer than
2 bytes received) or the combined register value genuinely is 0xFFFF. -/
theorem readRegisterValue_sentinel {σ : Type} (dev : BQ25723) (T : Transport σ) (s : σ)
    (regAddr : Nat) :
    (readRegisterValue dev T s regAddr).1 = 0xFFFF ↔
      (dev.initialized = false ∨
       (addrPhase dev T s regAddr).1 ≠ 0 ∨
       (dataPhase dev T s regAddr).1 ≠ 2 ∨
       (((recvHi dev T s regAddr).1 % 256) <<< 8) ||| ((recvLo dev T s regAddr).1 % 256)
         = 0xFFFF) := by
  cases hi : dev.initialized with
  | false => simp [readRegisterValue, readRegister, hi]
  | true =>
    by_cases h1 : (addrPhase dev T s regAddr).1 ≠ 0
    · simp [readRegisterValue, readRegister, hi, h1]
    · by_cases h2 : (dataPhase dev T s regAddr).1 ≠ 2
      · simp [readRegisterValue, readRegister, hi, h1, h2]
      · simp [readRegisterValue, readRegister, hi, h1, h2]

/-- C4: against the loopback fake transport, a `writeRegister` of any 16-bit
value followed by a `readRegister` of the same register yields the value back;
the write transmits the low byte before the high byte, and the read receives
them in the same order (the first received byte becomes the low byte). -/
theorem write_read_roundtrip (dev : BQ25723) (st : EchoState) (regAddr v prior : Nat)
    (hinit : dev.initialized = true) (hv : v < 65536) :
    (writeRegister dev echoTransport st regAddr v).1 = true ∧
    (writeRegister dev echoTransport st regAddr v).2.2 =
      [WireEvent.beginTransmission dev.address, WireEvent.writeByte regAddr,
       WireEvent.writeByte (v % 256), WireEvent.writeByte (v / 256),
       WireEvent.endTransmission true] ∧
    (readRegister dev echoTransport (writeRegister dev echoTransport st regAddr v).2.1
        regAddr (some prior)).1 = true ∧
    (readRegister dev echoTransport (writeRegister dev echoTransport st regAddr v).2.1
        regAddr (some prior)).2.1 = some v := by
  have hlo : (v &&& 255) % 256 = v % 256 := by
    rw [and_255_eq_mod]
    omega
  have hhi : ((v >>> 8) &&& 255) % 256 = v / 256 := by
    rw [and_255_eq_mod, shiftRight_8_eq_div]
    omega
  have hcomb : ((v / 256 % 256) <<< 8) ||| (v % 256 % 256) = v := by
    rw [lor_shiftLeft_8 _ _ (by omega)]
    omega
  have hcomb2 : ((v / 256) <<< 8) ||| (v % 256) = v := by
    rw [lor_shiftLeft_8 _ _ (by omega)]
    omega
  refine ⟨?_, ?_, ?_, ?_⟩ <;>
    simp [writeRegister, readRegister, addrPhase, dataPhase, recvLo, recvHi,
      echoTransport, hinit, hlo, hhi, hcomb, hcomb2, and_255_eq_mod, shiftRight_8_eq_div,
      Nat.mod_eq_of_lt (show v / 256 < 256 by omega)]

/-- Concrete instantiation of `write_read_roundtrip`: value 0xABCD written to
register 0x02 and read back from an initially blank loopback device. -/
theorem write_read_roundtrip_witness :
    ((⟨0x6B, 100000, true⟩ : BQ25723).initialized = true ∧ (0xABCD : Nat) < 65536) ∧
    (readRegister ⟨0x6B, 100000, true⟩ echoTransport
        (writeRegister ⟨0x6B, 100000, true⟩ echoTransport ⟨fun _ => [], [], 0, []⟩
          0x02 0xABCD).2.1 0x02 (some 0)).2.1 = some 0xABCD :=
  ⟨⟨rfl, by decide⟩,
   (write_read_roundtrip ⟨0x6B, 100000, true⟩ ⟨fun _ => [], [], 0, []⟩ 0x02 0xABCD 0
      rfl (by decide)).2.2.2⟩

/-- Setting one buffer slot leaves every other slot unchanged. -/
theorem getD_set_ne (l : List Nat) (i j c : Nat) (h : j ≠ i) :
    (l.set i c).getD j 0 = l.getD j 0 := by
  simp [List.getD_eq_getElem?_getD, List.getElem?_set_ne (Ne.symm h)]

/-- Setting an in-range buffer slot stores the new value there. -/
theorem getD_set_self (l : List Nat) (i c : Nat) (h : i < l.length) :
    (l.set i c).getD i 0 = c := by
  simp [List.getD_eq_getElem?_getD, List.getElem?_set_self, h]

/-- Peeling the first index off a `countP` over `range (n+1)`. -/
theorem countP_range_shift (p : Nat → Bool) (n : Nat) :
    (List.range (n + 1)).countP p
      = (if p 0 then 1 else 0) + (List.range n).countP (fun j => p (j + 1)) := by
  rw [List.range_succ_eq_map, List.countP_cons, List.countP_map]
  exact Nat.add_comm _ _

/-- Peeling the first index off a concatenation over `range (n+1)`. -/
theorem flatten_map_range_shift (f : Nat → List WireEvent) (n : Nat) :
    ((List.range (n + 1)).map f).flatten
      = f 0 ++ ((List.range n).map (fun j => f (j + 1))).flatten := by
  rw [List.range_succ_eq_map, List.map_cons, List.flatten_cons, List.map_map]
  rfl

/-- The I/O trace of one single-register read against `faultyTransport`:
a full address phase and a 2-byte request, followed by the two byte reads
exactly when the address is one that succeeds. -/
def faultyStepTrace (dev : BQ25723) (ok : Nat → Bool) (a : Nat) : List WireEvent :=
  [WireEvent.beginTransmission dev.address, WireEvent.writeByte a,
   WireEvent.endTransmission false, WireEvent.requestFrom dev.address 2] ++
  (if ok a then [WireEvent.readByte, WireEvent.readByte] else [])

/-- One single-register read against `faultyTransport`, fully evaluated: on an
`ok` address it succeeds with the 16-bit truncation of `val a`, on any other
address it fails and leaves the cell untouched. -/
theorem readRegister_faulty_step (dev : BQ25723) (ok : Nat → Bool) (val : Nat → Nat)
    (st : FaultyState) (a prior : Nat) (hinit : dev.initialized = true) (ha : a < 256) :
    readRegister dev (faultyTransport ok val) st a (some prior) =
      if ok a then
        (true, some (val a % 65536), ⟨a, []⟩, faultyStepTrace dev ok a)
      else
        (false, some prior, ⟨a, st.queue⟩, faultyStepTrace dev ok a) := by
  have hmod : a % 256 = a := Nat.mod_eq_of_lt ha
  have hc : ((val a / 256 % 256) <<< 8) ||| (val a % 256) = val a % 65536 := by
    rw [lor_shiftLeft_8 _ _ (by omega)]
    omega
  by_cases hok : ok a
  · simp [readRegister, addrPhase, dataPhase, recvLo, recvHi, faultyTransport,
      faultyStepTrace, hinit, hmod, hok, combine_bytes_mod, hc]
  · simp [readRegister, addrPhase, dataPhase, recvLo, recvHi, faultyTransport,
      faultyStepTrace, hinit, hmod, hok]

/-- Loop invariant of `readMultipleRegisters` against `faultyTransport`: the
remaining `n` iterations starting at slot `i` count exactly the `ok`
addresses, fill each visited slot with the register value or the sentinel,
leave all other slots alone, and concatenate the `n` independent
single-transaction traces. -/
theorem readMultiAux_faulty (dev : BQ25723) (ok : Nat → Bool) (val : Nat → Nat)
    (startAddr : Nat) (hinit : dev.initialized = true) :
    ∀ (n i : Nat) (buf : List Nat) (st : FaultyState), i + n ≤ buf.length →
      (readMultiAux dev (faultyTransport ok val) startAddr i n buf st).1 =
          (List.range n).countP (fun j => ok ((startAddr + i + j) % 256)) ∧
      (readMultiAux dev (faultyTransport ok val) startAddr i n buf st).2.1.length
          = buf.length ∧
      (∀ j, j < i ∨ i + n ≤ j →
        (readMultiAux dev (faultyTransport ok val) startAddr i n buf st).2.1.getD j 0
          = buf.getD j 0) ∧
      (∀ j, i ≤ j → j < i + n →
        (readMultiAux dev (faultyTransport ok val) startAddr i n buf st).2.1.getD j 0
          = if ok ((startAddr + j) % 256) then val ((startAddr + j) % 256) % 65536
            else 0xFFFF) ∧
      (readMultiAux dev (faultyTransport ok val) startAddr i n buf st).2.2.2 =
        ((List.range n).map
          (fun j => faultyStepTrace dev ok ((startAddr + i + j) % 256))).flatten := by
  intro n
  induction n with
  | zero =>
    refine fun i buf st _ => ⟨by simp [readMultiAux], by simp [readMultiAux], ?_, ?_,
      by simp [readMultiAux]⟩
    · intro j _
      simp [readMultiAux]
    · intro j h1 h2
      omega
  | succ n ih =>
    intro i buf st hlen
    have ha : (startAddr + i) % 256 < 256 := Nat.mod_lt _ (by omega)
    have hshift : ∀ j : Nat, startAddr + i + (j + 1) = startAddr + (i + 1) + j := by
      intro j
      omega
    have hstep := readRegister_faulty_step dev ok val st ((startAddr + i) % 256)
      (buf.getD i 0) hinit ha
    by_cases hok : ok ((startAddr + i) % 256)
    · rw [if_pos hok] at hstep
      have hC : (readMultiAux dev (faultyTransport ok val) startAddr i (n + 1) buf st).1
          = 1 + (readMultiAux dev (faultyTransport ok val) startAddr (i + 1) n
              (buf.set i (val ((startAddr + i) % 256) % 65536))
              ⟨(startAddr + i) % 256, []⟩).1 := by
        simp only [readMultiAux]
        rw [hstep]
        simp
      have hB : (readMultiAux dev (faultyTransport ok val) startAddr i (n + 1) buf st).2.1
          = (readMultiAux dev (faultyTransport ok val) startAddr (i + 1) n
              (buf.set i (val ((startAddr + i) % 256) % 65536))
              ⟨(startAddr + i) % 256, []⟩).2.1 := by
        simp only [readMultiAux]
        rw [hstep]
        simp
      have hT : (readMultiAux dev (faultyTransport ok val) startAddr i (n + 1) buf st).2.2.2
          = faultyStepTrace dev ok ((startAddr + i) % 256)
            ++ (readMultiAux dev (faultyTransport ok val) startAddr (i + 1) n
              (buf.set i (val ((startAddr + i) % 256) % 65536))
              ⟨(startAddr + i) % 256, []⟩).2.2.2 := by
        simp only [readMultiAux]
        rw [hstep]
        simp
      obtain ⟨ih1, ih2, ih3, ih4, ih5⟩ :=
        ih (i + 1) (buf.set i (val ((startAddr + i) % 256) % 65536))
          ⟨(startAddr + i) % 256, []⟩ (by rw [List.length_set]; omega)
      refine ⟨?_, ?_, ?_, ?_, ?_⟩
      · rw [hC, ih1, countP_range_shift]
        simp [hok, hshift]
      · rw [hB, ih2, List.length_set]
      · intro j hj
        rw [hB, ih3 j (by omega)]
        exact getD_set_ne _ _ _ _ (by omega)
      · intro j hj1 hj2
        rw [hB]
        by_cases hji : j = i
        · subst hji
          rw [ih3 j (by omega), getD_set_self _ _ _ (by omega)]
          simp [hok]
        · rw [ih4 j (by omega) (by omega)]
      · rw [hT, ih5, flatten_map_range_shift]
        simp [hshift]
    · rw [if_neg hok] at hstep
      have hC : (readMultiAux dev (faultyTransport ok val) startAddr i (n + 1) buf st).1
          = (readMultiAux dev (faultyTransport ok val) startAddr (i + 1) n
              (buf.set i 0xFFFF) ⟨(startAddr + i) % 256, st.queue⟩).1 := by
        simp only [readMultiAux]
        rw [hstep]
        simp
      have hB : (readMultiAux dev (faultyTransport ok val) startAddr i (n + 1) buf st).2.1
          = (readMultiAux dev (faultyTransport ok val) startAddr (i + 1) n
              (buf.set i 0xFFFF) ⟨(startAddr + i) % 256, st.queue⟩).2.1 := by
        simp only [readMultiAux]
        rw [hstep]
        simp
      have hT : (readMultiAux dev (faultyTransport ok val) startAddr i (n + 1) buf st).2.2.2
          = faultyStepTrace dev ok ((startAddr + i) % 256)
            ++ (readMultiAux dev (faultyTransport ok val) startAddr (i + 1) n
              (buf.set i 0xFFFF) ⟨(startAddr + i) % 256, st.queue⟩).2.2.2 := by
        simp only [readMultiAux]
        rw [hstep]
        simp
      obtain ⟨ih1, ih2, ih3, ih4, ih5⟩ :=
        ih (i + 1) (buf.set i 0xFFFF) ⟨(startAddr + i) % 256, st.queue⟩
          (by rw [List.length_set]; omega)
      refine ⟨?_, ?_, ?_, ?_, ?_⟩
      · rw [hC, ih1, countP_range_shift]
        simp [hok, hshift]
      · rw [hB, ih2, List.length_set]
      · intro j hj
        rw [hB, ih3 j (by omega)]
        exact getD_set_ne _ _ _ _ (by omega)
      · intro j hj1 hj2
        rw [hB]
        by_cases hji : j = i
        · subst hji
          rw [ih3 j (by omega), getD_set_self _ _ _ (by omega)]
          simp [hok]
        · rw [ih4 j (by omega) (by omega)]
      · rw [hT, ih5, flatten_map_range_shift]
        simp [hshift]

/-- C6: on an initialized driver, `readMultipleRegisters` against a fake
transport that fails exactly on a chosen set of addresses performs `count`
independent single-register transactions at the consecutive (8-bit) addresses
`startAddr, startAddr+1, …`; a failure at one register does not abort the
following ones; each failed slot holds the sentinel 0xFFFF and each successful
slot the value read; slots beyond `count` are untouched; and the returned
count is exactly the number of successful reads. -/
theorem readMultipleRegisters_faulty (dev : BQ25723) (ok : Nat → Bool) (val : Nat → Nat)
    (st : FaultyState) (startAddr count : Nat) (buf : List Nat)
    (hinit : dev.initialized = true) (hcount : count ≤ buf.length) :
    (readMultipleRegisters dev (faultyTransport ok val) st startAddr (some buf) count).1
        = (List.range count).countP (fun j => ok ((startAddr + j) % 256)) ∧
    (readMultipleRegisters dev (faultyTransport ok val) st startAddr (some buf) count).2.2.2
        = ((List.range count).map
            (fun j => faultyStepTrace dev ok ((startAddr + j) % 256))).flatten ∧
    ∃ res : List Nat,
      (readMultipleRegisters dev (faultyTransport ok val) st startAddr (some buf) count).2.1
          = some res ∧
      res.length = buf.length ∧
      (∀ j, j < count →
        res.getD j 0 = if ok ((startAddr + j) % 256)
          then val ((startAddr + j) % 256) % 65536 else 0xFFFF) ∧
      (∀ j, count ≤ j → res.getD j 0 = buf.getD j 0) := by
  by_cases hc : count = 0
  · subst hc
    refine ⟨by simp [readMultipleRegisters, hinit], by simp [readMultipleRegisters, hinit],
      buf, by simp [readMultipleRegisters, hinit], rfl, ?_, ?_⟩
    · intro j hj
      omega
    · intro j _
      rfl
  · have hzero : ∀ j : Nat, startAddr + 0 + j = startAddr + j := by
      intro j
      omega
    obtain ⟨h1, h2, h3, h4, h5⟩ :=
      readMultiAux_faulty dev ok val startAddr hinit count 0 buf st (by omega)
    have hopen : readMultipleRegisters dev (faultyTransport ok val) st startAddr
        (some buf) count =
        ((readMultiAux dev (faultyTransport ok val) startAddr 0 count buf st).1,
         some (readMultiAux dev (faultyTransport ok val) startAddr 0 count buf st).2.1,
         (readMultiAux dev (faultyTransport ok val) startAddr 0 count buf st).2.2.1,
         (readMultiAux dev (faultyTransport ok val) startAddr 0 count buf st).2.2.2) := by
      simp [readMultipleRegisters, hinit, hc]
    refine ⟨?_, ?_, (readMultiAux dev (faultyTransport ok val) startAddr 0 count buf st).2.1,
      ?_, h2, ?_, ?_⟩
    · rw [hopen]
      rw [h1]
      simp [hzero]
    · rw [hopen]
      rw [h5]
      simp [hzero]
    · rw [hopen]
    · intro j hj
      exact h4 j (by omega) (by omega)
    · intro j hj
      exact h3 j (by omega)

/-- Concrete instantiation of `readMultipleRegisters_faulty`: reading the
three registers 0x20, 0x21, 0x22 where the fake transport fails exactly on
address 0x21 succeeds on 2 of the 3 reads. -/
theorem readMultipleRegisters_faulty_witness :
    (readMultipleRegisters ⟨0x6B, 100000, true⟩
        (faultyTransport (fun a => !(a == 0x21)) (fun a => 0x1111 + a)) ⟨0, []⟩
        0x20 (some [0, 0, 0, 9]) 3).1 = 2 :=
  Eq.trans
    (readMultipleRegisters_faulty ⟨0x6B, 100000, true⟩ (fun a => !(a == 0x21))
      (fun a => 0x1111 + a) ⟨0, []⟩ 0x20 3 [0, 0, 0, 9] rfl (by decide)).1
    (by decide)

end BQ25723Model
